import Mathlib

/-!
Shallow embedding of the ShoreSquad weather / geolocation services
(src/js/app.js) and verification of the specification's claims about them.

JS numbers are embedded as rationals (`ℚ`) for the data-plumbing code, whose
claims are about control flow and exact threshold comparisons, and as reals
(`ℝ`) for the trigonometric haversine distance.  JS promises / thrown
exceptions are embedded as `Except`; the browser environment (fetch results,
the geolocation capability and callback outcome, `Math.random` and the clock)
is passed to each function as explicit parameters.
-/

namespace ShoreSquad

/-- JS `Math.round`: rounds to the nearest integer, halfway cases toward
positive infinity, i.e. `Math.round x = ⌊x + 1/2⌋`. -/
def jsRound (q : ℚ) : ℤ := ⌊q + 1/2⌋

/-- `WeatherService.determineCondition` (src/js/app.js 296-302). -/
def determineCondition (temp humidity rainfall : ℚ) : String :=
  if rainfall > 5 then "rainy"
  else if humidity > 80 then "humid"
  else if temp > 32 then "hot"
  else if temp < 26 then "cool"
  else "pleasant"

/-- `WeatherService.getConditionDescription` (src/js/app.js 304-310). -/
def getConditionDescription (temp rainfall : ℚ) : String :=
  if rainfall > 10 then "Heavy rain - consider rescheduling cleanup"
  else if rainfall > 2 then "Light rain - bring umbrellas!"
  else if temp > 33 then "Very hot - stay hydrated and take breaks"
  else if temp > 30 then "Great weather for beach cleanup!"
  else "Perfect conditions for outdoor activities!"

/-- `WeatherService.getWeatherIcon` (src/js/app.js 312-318). -/
def getWeatherIcon (rainfall temp : ℚ) : String :=
  if rainfall > 5 then "🌧️"
  else if rainfall > 0 then "🌦️"
  else if temp > 32 then "☀️"
  else if temp > 28 then "🌤️"
  else "⛅"

/-- One station entry of a realtime-readings category: `{station_id, value}`. -/
structure StationReading where
  station_id : String
  value : ℚ
deriving DecidableEq

/-- The `readings` object of a realtime-readings item.  The `wind_speed` key
may be absent from the payload (the source guards it with
`readings.wind_speed ? … : null`), hence `Option`; the other three keys are
dereferenced unconditionally. -/
structure Readings where
  air_temperature : List StationReading
  relative_humidity : List StationReading
  wind_speed : Option (List StationReading)
  rainfall : List StationReading
deriving DecidableEq

/-- One element of `data.items` in the realtime-readings payload. -/
structure RealtimeItem where
  timestamp : String
  readings : Readings
deriving DecidableEq

/-- The parsed realtime-readings payload: `{items: [...]}`. -/
structure RealtimeData where
  items : List RealtimeItem
deriving DecidableEq

/-- The Changi-area station filter used by the temperature, humidity and wind
`find` calls: `station.station_id === 'S24' || station.station_id === 'S109'`. -/
def isChangiArea (s : StationReading) : Bool :=
  s.station_id == "S24" || s.station_id == "S109"

/-- The Pasir Ris station filter used by the rainfall `find` call:
`station.station_id === 'S64'`. -/
def isPasirRis (s : StationReading) : Bool :=
  s.station_id == "S64"

/-- `arr.find(pred) || arr[0]`: the first matching entry, else the first entry,
else JS `undefined` (embedded as `none`). -/
def selectReading (stations : List StationReading) (pred : StationReading → Bool) :
    Option StationReading :=
  (stations.find? pred).orElse (fun _ => stations.head?)

/-- The simplified current-conditions record built by the weather service. -/
structure CurrentWeather where
  temperature : ℤ
  humidity : ℤ
  windSpeed : ℤ
  rainfall : ℚ
  condition : String
  description : String
  icon : String
  timestamp : String
  location : String
deriving DecidableEq

/-- `WeatherService.getFallbackCurrentWeather` (src/js/app.js 351-363).
`nowIso` is what `new Date().toISOString()` returns, read from the clock. -/
def getFallbackCurrentWeather (nowIso : String) : CurrentWeather :=
  { temperature := 29
    humidity := 78
    windSpeed := 12
    rainfall := 0
    condition := "pleasant"
    description := "Typical Singapore weather - great for beach cleanup!"
    icon := "🌤️"
    timestamp := nowIso
    location := "Singapore" }

/-- `WeatherService.formatCurrentWeather` (src/js/app.js 223-265).

`data.items[0]` on an empty `items` list makes the subsequent `.readings`
dereference throw, which the surrounding try/catch turns into the fallback
record.  Line 247 reads
`const windSpeed = windReading ? Math.round(windSpeed.value * 3.6) : 10`:
in the truthy branch the const `windSpeed` is referenced inside its own
initializer, which in JS throws a ReferenceError (temporal dead zone), so
whenever a wind reading is selected the try/catch returns the fallback
record; only the falsy branch (`windSpeed = 10`) is reachable. -/
def formatCurrentWeather (data : RealtimeData) (nowIso : String) : CurrentWeather :=
  match data.items.head? with
  | none => getFallbackCurrentWeather nowIso
  | some items =>
    let readings := items.readings
    let tempReading := selectReading readings.air_temperature isChangiArea
    let humidityReading := selectReading readings.relative_humidity isChangiArea
    let windReading : Option StationReading :=
      match readings.wind_speed with
      | some ws => selectReading ws isChangiArea
      | none => none
    let rainfallReading := selectReading readings.rainfall isPasirRis
    match windReading with
    | some _ => getFallbackCurrentWeather nowIso
    | none =>
      let temperature : ℚ := match tempReading with | some s => s.value | none => 28
      let humidity : ℚ := match humidityReading with | some s => s.value | none => 75
      let windSpeed : ℚ := 10
      let rainfall : ℚ := match rainfallReading with | some s => s.value | none => 0
      { temperature := jsRound temperature
        humidity := jsRound humidity
        windSpeed := jsRound windSpeed
        rainfall := rainfall
        condition := determineCondition temperature humidity rainfall
        description := getConditionDescription temperature rainfall
        icon := getWeatherIcon rainfall temperature
        timestamp := items.timestamp
        location := "Pasir Ris Area" }

/-- Modelled from the spec: the intended behavior of src/js/app.js line 247,
which is missing from the source (the source references the const `windSpeed`
inside its own initializer) — "converting a wind-speed reading from one unit
to another before rounding", i.e.
`const windSpeed = windReading ? Math.round(windReading.value * 3.6) : 10`
(m/s to km/h).  Identical to `formatCurrentWeather` everywhere else. -/
def formatCurrentWeatherIntended (data : RealtimeData) (nowIso : String) : CurrentWeather :=
  match data.items.head? with
  | none => getFallbackCurrentWeather nowIso
  | some items =>
    let readings := items.readings
    let tempReading := selectReading readings.air_temperature isChangiArea
    let humidityReading := selectReading readings.relative_humidity isChangiArea
    let windReading : Option StationReading :=
      match readings.wind_speed with
      | some ws => selectReading ws isChangiArea
      | none => none
    let rainfallReading := selectReading readings.rainfall isPasirRis
    let temperature : ℚ := match tempReading with | some s => s.value | none => 28
    let humidity : ℚ := match humidityReading with | some s => s.value | none => 75
    let windSpeed : ℚ := match windReading with | some s => (jsRound (s.value * 3.6) : ℤ) | none => 10
    let rainfall : ℚ := match rainfallReading with | some s => s.value | none => 0
    { temperature := jsRound temperature
      humidity := jsRound humidity
      windSpeed := jsRound windSpeed
      rainfall := rainfall
      condition := determineCondition temperature humidity rainfall
      description := getConditionDescription temperature rainfall
      icon := getWeatherIcon rainfall temperature
      timestamp := items.timestamp
      location := "Pasir Ris Area" }

/-- JS `String.prototype.includes`: `sub` occurs contiguously in `s`. -/
def jsIncludes (s sub : String) : Bool :=
  (List.range (s.data.length + 1)).any (fun i => sub.data.isPrefixOf (s.data.drop i))

/-- JS `String.prototype.toLowerCase` (ASCII case folding suffices for the
forecast labels the code inspects). -/
def jsToLowerCase (s : String) : String := s.toLower

/-- `WeatherService.getForecastIcon` (src/js/app.js 320-328). -/
def getForecastIcon (forecast : String) : String :=
  let forecastLower := jsToLowerCase forecast
  if jsIncludes forecastLower "rain" || jsIncludes forecastLower "shower" then "🌧️"
  else if jsIncludes forecastLower "thunder" then "⛈️"
  else if jsIncludes forecastLower "cloud" then "☁️"
  else if jsIncludes forecastLower "partly" then "⛅"
  else if jsIncludes forecastLower "fair" || jsIncludes forecastLower "sunny" then "☀️"
  else "🌤️"

/-- `WeatherService.getForecastDescription` (src/js/app.js 330-342). -/
def getForecastDescription (forecast : String) : String :=
  let forecastLower := jsToLowerCase forecast
  if jsIncludes forecastLower "rain" || jsIncludes forecastLower "shower" then
    "Check weather before heading out"
  else if jsIncludes forecastLower "thunder" then
    "Not suitable for beach activities"
  else if jsIncludes forecastLower "fair" || jsIncludes forecastLower "sunny" then
    "Perfect for beach cleanup!"
  else "Good conditions for outdoor activities"

/-- A `{high, low}` pair in the forecast payload and output. -/
structure HighLow where
  high : ℚ
  low : ℚ
deriving DecidableEq

/-- A `{speed, direction}` wind descriptor. -/
structure ForecastWind where
  speed : ℚ
  direction : String
deriving DecidableEq

/-- One day of the upstream 4-day-forecast payload.  The `wind` key may be
absent (the source guards it with `day.wind ? … : null`). -/
structure ForecastDayIn where
  date : String
  forecast : String
  temperature : HighLow
  relative_humidity : HighLow
  wind : Option ForecastWind
deriving DecidableEq

/-- One element of `data.items` in the 4-day-forecast payload. -/
structure ForecastItem where
  forecasts : List ForecastDayIn
deriving DecidableEq

/-- The parsed 4-day-forecast payload: `{items: [...]}`. -/
structure ForecastData where
  items : List ForecastItem
deriving DecidableEq

/-- One day of the normalized forecast list the weather service produces. -/
structure ForecastDay where
  date : String
  forecast : String
  temperature : HighLow
  humidity : HighLow
  wind : Option ForecastWind
  icon : String
  description : String
deriving DecidableEq

/-- `WeatherService.getFallbackForecastData` (src/js/app.js 365-385).
`rand n` is the value of the n-th `Math.random()` call (call order within a
day: temperature.high, temperature.low, humidity.high, humidity.low,
wind.speed — five calls per day); `isoDateAt i` is what
`new Date(Date.now() + i*24*60*60*1000).toISOString().split('T')[0]` returns,
read from the clock.  The source maps over the four-element
`['Today', 'Tomorrow', 'Day 3', 'Day 4']` list using only the index. -/
def getFallbackForecastData (rand : ℕ → ℚ) (isoDateAt : ℕ → String) : List ForecastDay :=
  (List.range 4).map (fun index =>
    { date := isoDateAt index
      forecast := "Partly Cloudy"
      temperature :=
        { high := 32 + (jsRound (rand (5 * index) * 3) : ℤ)
          low := 26 + (jsRound (rand (5 * index + 1) * 2) : ℤ) }
      humidity :=
        { high := 85 + (jsRound (rand (5 * index + 2) * 10) : ℤ)
          low := 65 + (jsRound (rand (5 * index + 3) * 10) : ℤ) }
      wind := some
        { speed := 10 + (jsRound (rand (5 * index + 4) * 5) : ℤ)
          direction := "NE" }
      icon := if index == 0 then "🌤️" else "⛅"
      description := "Good conditions for outdoor activities" })

/-- `WeatherService.formatForecastData` (src/js/app.js 267-294).
`data.items[0]` on an empty `items` list makes `.forecasts` throw, which the
try/catch turns into the fallback forecast list (which consumes the random
and clock oracles). -/
def formatForecastData (data : ForecastData) (rand : ℕ → ℚ) (isoDateAt : ℕ → String) :
    List ForecastDay :=
  match data.items.head? with
  | none => getFallbackForecastData rand isoDateAt
  | some items =>
    items.forecasts.map (fun day =>
      { date := day.date
        forecast := day.forecast
        temperature := { high := day.temperature.high, low := day.temperature.low }
        humidity := { high := day.relative_humidity.high, low := day.relative_humidity.low }
        wind := match day.wind with
          | some w => some { speed := w.speed, direction := w.direction }
          | none => none
        icon := getForecastIcon day.forecast
        description := getForecastDescription day.forecast })

/-- The `{current, forecast}` bundle returned by `getCurrentWeather`. -/
structure WeatherData where
  current : CurrentWeather
  forecast : List ForecastDay
deriving DecidableEq

/-- `WeatherService.getFallbackWeatherData` (src/js/app.js 344-349). -/
def getFallbackWeatherData (rand : ℕ → ℚ) (nowIso : String) (isoDateAt : ℕ → String) :
    WeatherData :=
  { current := getFallbackCurrentWeather nowIso
    forecast := getFallbackForecastData rand isoDateAt }

/-- `WeatherService.getCurrentWeather` (src/js/app.js 171-185): awaits the
realtime fetch, then the forecast fetch; if either rejects, the catch returns
the complete fallback bundle.  The two fetch outcomes are the environment and
are passed as `Except` values (the realtime one is awaited first, so when it
rejects the forecast outcome is never consulted). -/
def getCurrentWeather (realtime : Except String RealtimeData)
    (forecast : Except String ForecastData)
    (rand : ℕ → ℚ) (nowIso : String) (isoDateAt : ℕ → String) : WeatherData :=
  match realtime with
  | Except.error _ => getFallbackWeatherData rand nowIso isoDateAt
  | Except.ok rt =>
    match forecast with
    | Except.error _ => getFallbackWeatherData rand nowIso isoDateAt
    | Except.ok fc =>
      { current := formatCurrentWeather rt nowIso
        forecast := formatForecastData fc rand isoDateAt }

/-- A resolved location: `{lat, lng}` plus the fields that differ between the
success value (`accuracy`) and `CONFIG.DEFAULT_LOCATION` (`name`). -/
structure GeoCoordinate where
  lat : ℚ
  lng : ℚ
  accuracy : Option ℚ
  name : Option String
deriving DecidableEq

/-- `CONFIG.DEFAULT_LOCATION` (src/js/app.js 17-21). -/
def DEFAULT_LOCATION : GeoCoordinate :=
  { lat := 1.381497, lng := 103.955574, accuracy := none, name := some "Pasir Ris, Singapore" }

/-- The browser geolocation success value's `coords`. -/
structure BrowserPosition where
  latitude : ℚ
  longitude : ℚ
  accuracy : ℚ
deriving DecidableEq

/-- `GeolocationService.getCurrentPosition` (src/js/app.js 122-151).
`geolocationSupported` is whether `navigator.geolocation` exists;
`browserOutcome` is the geolocation callback outcome (success coords, or an
error such as permission denial or the 10 s timeout).  The returned `Except`
is the promise: `Except.ok` = resolve, `Except.error` = reject.  The success
branch also persists the location to local storage, a side effect outside
this value-level embedding. -/
def getCurrentPosition (geolocationSupported : Bool)
    (browserOutcome : Except String BrowserPosition) : Except String GeoCoordinate :=
  if !geolocationSupported then Except.error "Geolocation not supported"
  else
    match browserOutcome with
    | Except.ok p =>
        Except.ok { lat := p.latitude, lng := p.longitude, accuracy := some p.accuracy, name := none }
    | Except.error _ => Except.ok DEFAULT_LOCATION

/-- JS `Math.atan2 y x` on real inputs. -/
noncomputable def atan2 (y x : ℝ) : ℝ :=
  if 0 < x then Real.arctan (y / x)
  else if x < 0 ∧ 0 ≤ y then Real.arctan (y / x) + Real.pi
  else if x < 0 ∧ y < 0 then Real.arctan (y / x) - Real.pi
  else if x = 0 ∧ 0 < y then Real.pi / 2
  else if x = 0 ∧ y < 0 then -(Real.pi / 2)
  else 0

/-- `GeolocationService.calculateDistance` (src/js/app.js 153-166), over `ℝ`. -/
noncomputable def calculateDistance (lat1 lng1 lat2 lng2 : ℝ) : ℝ :=
  let R : ℝ := 6371e3
  let phi1 := lat1 * Real.pi / 180
  let phi2 := lat2 * Real.pi / 180
  let dphi := (lat2 - lat1) * Real.pi / 180
  let dlam := (lng2 - lng1) * Real.pi / 180
  let a := Real.sin (dphi / 2) * Real.sin (dphi / 2) +
      Real.cos phi1 * Real.cos phi2 * Real.sin (dlam / 2) * Real.sin (dlam / 2)
  let c := 2 * atan2 (Real.sqrt a) (Real.sqrt (1 - a))
  R * c

/-- Modelled from the spec: "compute great-circle distance via the haversine
formula using a fixed Earth radius (6,371,000 m)" — the canonical haversine
implementation form (angles in degrees, `c = 2·atan2(√a, √(1−a))`), written
with the spec's radius literal, to be compared with `calculateDistance`. -/
noncomputable def haversineFormulaSpec (lat1 lng1 lat2 lng2 : ℝ) : ℝ :=
  let a := Real.sin ((lat2 - lat1) * Real.pi / 180 / 2) *
        Real.sin ((lat2 - lat1) * Real.pi / 180 / 2) +
      Real.cos (lat1 * Real.pi / 180) * Real.cos (lat2 * Real.pi / 180) *
        Real.sin ((lng2 - lng1) * Real.pi / 180 / 2) *
        Real.sin ((lng2 - lng1) * Real.pi / 180 / 2)
  6371000 * (2 * atan2 (Real.sqrt a) (Real.sqrt (1 - a)))

/-- The failing input for claim C1: a realtime payload whose wind_speed
category contains a Changi-area reading of 5 m/s, alongside live temperature,
humidity and rainfall readings. -/
def windyPayload : RealtimeData :=
  { items := [{ timestamp := "2025-01-01T00:00:00+08:00"
                readings :=
                  { air_temperature := [{ station_id := "S24", value := 30 }]
                    relative_humidity := [{ station_id := "S24", value := 70 }]
                    wind_speed := some [{ station_id := "S24", value := 5 }]
                    rainfall := [{ station_id := "S64", value := 0 }] } }] }

/-- The counterexample payload for claim C10: the air_temperature category is
empty while the wind_speed category yields a reading. -/
def emptyTempWindyPayload : RealtimeData :=
  { items := [{ timestamp := "2025-01-01T00:00:00+08:00"
                readings :=
                  { air_temperature := []
                    relative_humidity := [{ station_id := "S24", value := 70 }]
                    wind_speed := some [{ station_id := "S24", value := 5 }]
                    rainfall := [{ station_id := "S64", value := 0 }] } }] }

/-- `jsRound q = z` whenever `z ≤ q + 1/2 < z + 1`; used to evaluate concrete
roundings, since rational arithmetic does not reduce definitionally. -/
theorem jsRound_eq_of (q : ℚ) (z : ℤ) (h1 : (z : ℚ) ≤ q + 1 / 2)
    (h2 : q + 1 / 2 < z + 1) : jsRound q = z := by
  unfold jsRound
  rw [Int.floor_eq_iff]
  exact ⟨h1, h2⟩

/-- Claim C1 (code bug): on a payload with a selected wind reading of 5 m/s,
line 247 of the source throws a ReferenceError (the const `windSpeed` is
referenced inside its own initializer), so `formatCurrentWeather` returns the
full fallback record with windSpeed 12 and discards the live readings; the
spec-intended conversion (m/s to km/h, then round) yields
round(5 · 3.6) = 18. -/
theorem claim_C1_wind_conversion_defect (nowIso : String) :
    formatCurrentWeather windyPayload nowIso = getFallbackCurrentWeather nowIso ∧
    (formatCurrentWeatherIntended windyPayload nowIso).windSpeed = 18 ∧
    (getFallbackCurrentWeather nowIso).windSpeed = 12 :=
  ⟨rfl, by
    show jsRound ((jsRound ((5 : ℚ) * 3.6) : ℤ) : ℚ) = 18
    have h1 : jsRound ((5 : ℚ) * 3.6) = 18 :=
      jsRound_eq_of _ _ (by norm_num) (by norm_num)
    rw [h1]
    exact jsRound_eq_of _ _ (by norm_num) (by norm_num), rfl⟩

/-- Claim C2: whenever either weather fetch rejects (the realtime one, or the
forecast one regardless of the realtime outcome), the current part of the
bundle returned by `getCurrentWeather` equals the documented fallback
literal: temperature 29, humidity 78, windSpeed 12, rainfall 0, condition
"pleasant". -/
theorem claim_C2_fallback_literal_on_reject (e : String) (rt : Except String RealtimeData)
    (fc : Except String ForecastData) (rand : ℕ → ℚ) (nowIso : String)
    (isoDateAt : ℕ → String) :
    ((getCurrentWeather (Except.error e) fc rand nowIso isoDateAt).current.temperature = 29 ∧
      (getCurrentWeather (Except.error e) fc rand nowIso isoDateAt).current.humidity = 78 ∧
      (getCurrentWeather (Except.error e) fc rand nowIso isoDateAt).current.windSpeed = 12 ∧
      (getCurrentWeather (Except.error e) fc rand nowIso isoDateAt).current.rainfall = 0 ∧
      (getCurrentWeather (Except.error e) fc rand nowIso isoDateAt).current.condition =
        "pleasant") ∧
    ((getCurrentWeather rt (Except.error e) rand nowIso isoDateAt).current.temperature = 29 ∧
      (getCurrentWeather rt (Except.error e) rand nowIso isoDateAt).current.humidity = 78 ∧
      (getCurrentWeather rt (Except.error e) rand nowIso isoDateAt).current.windSpeed = 12 ∧
      (getCurrentWeather rt (Except.error e) rand nowIso isoDateAt).current.rainfall = 0 ∧
      (getCurrentWeather rt (Except.error e) rand nowIso isoDateAt).current.condition =
        "pleasant") := by
  constructor
  · exact ⟨rfl, rfl, rfl, rfl, rfl⟩
  · cases rt <;> exact ⟨rfl, rfl, rfl, rfl, rfl⟩

/-- Claim C3 counterexample: the fallback bundle is not independent of the
random-number oracle — with the same clock, the all-zeros random sequence and
the all-one-half random sequence yield different bundles (the forecast
temperatures differ). -/
theorem claim_C3_counterexample :
    getFallbackWeatherData (fun _ => 0) "2025-01-01T00:00:00.000Z" (fun _ => "2025-01-01") ≠
      getFallbackWeatherData (fun _ => 1/2) "2025-01-01T00:00:00.000Z"
        (fun _ => "2025-01-01") := by
  intro hEq
  have h := congrArg (fun w =>
    (w.forecast.headD
      { date := "", forecast := "", temperature := ⟨0, 0⟩, humidity := ⟨0, 0⟩,
        wind := none, icon := "", description := "" }).temperature.high) hEq
  have h0 : jsRound ((0 : ℚ) * 3) = 0 := jsRound_eq_of _ _ (by norm_num) (by norm_num)
  have h2 : jsRound ((1 / 2 : ℚ) * 3) = 2 := jsRound_eq_of _ _ (by norm_num) (by norm_num)
  have hr : List.range 4 = [0, 1, 2, 3] := rfl
  simp only [getFallbackWeatherData, getFallbackForecastData, hr, List.map, List.headD] at h
  rw [h0, h2] at h
  norm_num at h

/-- Claim C3 (amended): the fallback current record is deterministic in every
field except its timestamp (which reads the clock); the fallback forecast
list depends on the random and clock oracles (its temperature, humidity and
wind values are jittered by Math.random and its dates derive from the
current time). -/
theorem claim_C3_fallback_determinism_amended (n n' : String) :
    (getFallbackCurrentWeather n).temperature = (getFallbackCurrentWeather n').temperature ∧
    (getFallbackCurrentWeather n).humidity = (getFallbackCurrentWeather n').humidity ∧
    (getFallbackCurrentWeather n).windSpeed = (getFallbackCurrentWeather n').windSpeed ∧
    (getFallbackCurrentWeather n).rainfall = (getFallbackCurrentWeather n').rainfall ∧
    (getFallbackCurrentWeather n).condition = (getFallbackCurrentWeather n').condition ∧
    (getFallbackCurrentWeather n).description = (getFallbackCurrentWeather n').description ∧
    (getFallbackCurrentWeather n).icon = (getFallbackCurrentWeather n').icon ∧
    (getFallbackCurrentWeather n).location = (getFallbackCurrentWeather n').location :=
  ⟨rfl, rfl, rfl, rfl, rfl, rfl, rfl, rfl⟩

/-- Claim C4: `determineCondition` applies the fixed thresholds rainfall > 5 →
"rainy", humidity > 80 → "humid", temperature > 32 → "hot", temperature <
26 → "cool", else "pleasant", in that priority order. -/
theorem claim_C4_condition_thresholds (t h r : ℚ) :
    (r > 5 → determineCondition t h r = "rainy") ∧
    (r ≤ 5 → h > 80 → determineCondition t h r = "humid") ∧
    (r ≤ 5 → h ≤ 80 → t > 32 → determineCondition t h r = "hot") ∧
    (r ≤ 5 → h ≤ 80 → t < 26 → determineCondition t h r = "cool") ∧
    (r ≤ 5 → h ≤ 80 → 26 ≤ t → t ≤ 32 → determineCondition t h r = "pleasant") := by
  unfold determineCondition
  refine ⟨?_, ?_, ?_, ?_, ?_⟩ <;> intros <;> split_ifs <;> first | rfl | linarith

/-- Claim C4 witness: the thresholds evaluated at the spec's example point
(temperature 27, humidity 70, rainfall 0) give "pleasant". -/
theorem claim_C4_condition_thresholds_witness :
    (0 : ℚ) ≤ 5 ∧ (70 : ℚ) ≤ 80 ∧ (26 : ℚ) ≤ 27 ∧ (27 : ℚ) ≤ 32 ∧
      determineCondition 27 70 0 = "pleasant" :=
  ⟨by norm_num, by norm_num, by norm_num, by norm_num,
    (claim_C4_condition_thresholds 27 70 0).2.2.2.2 (by norm_num) (by norm_num) (by norm_num)
      (by norm_num)⟩

/-- Claim C5 counterexample: at temperature 33, rainfall 0 and humidity 81 the
condition is "humid", not "hot" — the humidity check has priority, so the
claim fails for humidity values above 80. -/
theorem claim_C5_counterexample :
    determineCondition 33 81 0 = "humid" ∧ determineCondition 33 81 0 ≠ "hot" := by
  constructor <;> decide

/-- Claim C5 (amended): for temperature 33 and rainfall 0, `determineCondition`
returns "hot" for every humidity value not exceeding 80. -/
theorem claim_C5_hot_at_33_amended (h : ℚ) (hh : h ≤ 80) :
    determineCondition 33 h 0 = "hot" := by
  unfold determineCondition
  split_ifs <;> first | rfl | linarith

/-- Claim C5 witness: the amended statement evaluated at humidity 70. -/
theorem claim_C5_hot_at_33_witness :
    (70 : ℚ) ≤ 80 ∧ determineCondition 33 70 0 = "hot" :=
  ⟨by norm_num, claim_C5_hot_at_33_amended 70 (by norm_num)⟩

/-- Claim C6 counterexample: (27, 70, 0) and (31, 70, 0) receive the same
condition label but different icons and different advisory sentences, so
neither the icon nor the description factors through the label. -/
theorem claim_C6_counterexample :
    determineCondition 27 70 0 = determineCondition 31 70 0 ∧
    getWeatherIcon 0 27 ≠ getWeatherIcon 0 31 ∧
    getConditionDescription 27 0 ≠ getConditionDescription 31 0 := by
  refine ⟨?_, ?_, ?_⟩ <;> decide

/-- Claim C6 (amended): the icon glyph and the advisory sentence are fixed
threshold lookup tables on the raw (rainfall, temperature) pair — not on the
condition label: rainfall > 5 → 🌧️, 0 < rainfall ≤ 5 → 🌦️, then
temperature bands ☀️ / 🌤️ / ⛅; rainfall > 10, 2 < rainfall ≤ 10, then
temperature bands for the advisory sentence.  Humidity never affects them. -/
theorem claim_C6_lookup_amended (t r : ℚ) :
    (r > 5 → getWeatherIcon r t = "🌧️") ∧
    (r ≤ 5 → r > 0 → getWeatherIcon r t = "🌦️") ∧
    (r ≤ 0 → t > 32 → getWeatherIcon r t = "☀️") ∧
    (r ≤ 0 → t ≤ 32 → t > 28 → getWeatherIcon r t = "🌤️") ∧
    (r ≤ 0 → t ≤ 28 → getWeatherIcon r t = "⛅") ∧
    (r > 10 → getConditionDescription t r = "Heavy rain - consider rescheduling cleanup") ∧
    (r ≤ 10 → r > 2 → getConditionDescription t r = "Light rain - bring umbrellas!") ∧
    (r ≤ 2 → t > 33 → getConditionDescription t r = "Very hot - stay hydrated and take breaks") ∧
    (r ≤ 2 → t ≤ 33 → t > 30 → getConditionDescription t r = "Great weather for beach cleanup!") ∧
    (r ≤ 2 → t ≤ 30 → getConditionDescription t r =
      "Perfect conditions for outdoor activities!") := by
  unfold getWeatherIcon getConditionDescription
  refine ⟨?_, ?_, ?_, ?_, ?_, ?_, ?_, ?_, ?_, ?_⟩ <;> intros <;> split_ifs <;>
    first | rfl | linarith

/-- Claim C6 witness: the amended lookup tables evaluated at temperature 27,
rainfall 0. -/
theorem claim_C6_lookup_witness :
    (0 : ℚ) ≤ 0 ∧ (27 : ℚ) ≤ 28 ∧ getWeatherIcon 0 27 = "⛅" :=
  ⟨by norm_num, by norm_num, (claim_C6_lookup_amended 27 0).2.2.2.2.1 (by norm_num) (by norm_num)⟩

/-- Claim C7 counterexample: when the geolocation capability is absent, the
promise rejects with an error instead of resolving with the fallback
coordinate. -/
theorem claim_C7_counterexample :
    getCurrentPosition false (Except.error "permission denied") =
      Except.error "Geolocation not supported" ∧
    getCurrentPosition false (Except.error "permission denied") ≠
      Except.ok DEFAULT_LOCATION := by
  refine ⟨rfl, fun h => ?_⟩
  exact Except.noConfusion h

/-- Claim C7 (amended): on permission denial or timeout (any geolocation
callback error) the promise resolves with the hardcoded fallback coordinate,
and on success it resolves with the reported coordinate; but when the
geolocation capability is absent, the promise rejects with "Geolocation not
supported". -/
theorem claim_C7_location_resolver_amended (e : String) (p : BrowserPosition)
    (res : Except String BrowserPosition) :
    getCurrentPosition true (Except.error e) = Except.ok DEFAULT_LOCATION ∧
    getCurrentPosition true (Except.ok p) =
      Except.ok { lat := p.latitude, lng := p.longitude, accuracy := some p.accuracy,
                  name := none } ∧
    getCurrentPosition false res = Except.error "Geolocation not supported" :=
  ⟨rfl, rfl, rfl⟩

/-- Claim C8: when the realtime fetch succeeds but the forecast fetch rejects,
`getCurrentWeather` returns exactly the complete fallback bundle — the
successfully fetched realtime data is discarded. -/
theorem claim_C8_no_partial_success (rt : RealtimeData) (e : String) (rand : ℕ → ℚ)
    (nowIso : String) (isoDateAt : ℕ → String) :
    getCurrentWeather (Except.ok rt) (Except.error e) rand nowIso isoDateAt =
      getFallbackWeatherData rand nowIso isoDateAt := rfl

/-- Claim C9: `calculateDistance` is symmetric under swapping its two
coordinate arguments, returns 0 on identical coordinates, and on all inputs
equals the haversine great-circle formula with Earth radius 6,371,000 m. -/
theorem claim_C9_haversine (lat1 lng1 lat2 lng2 : ℝ) :
    calculateDistance lat1 lng1 lat2 lng2 = calculateDistance lat2 lng2 lat1 lng1 ∧
    calculateDistance lat1 lng1 lat1 lng1 = 0 ∧
    calculateDistance lat1 lng1 lat2 lng2 = haversineFormulaSpec lat1 lng1 lat2 lng2 := by
  have key : ∀ a b c d : ℝ,
      Real.sin ((b - a) * Real.pi / 180 / 2) * Real.sin ((b - a) * Real.pi / 180 / 2) +
          Real.cos (a * Real.pi / 180) * Real.cos (b * Real.pi / 180) *
            Real.sin ((d - c) * Real.pi / 180 / 2) * Real.sin ((d - c) * Real.pi / 180 / 2) =
        Real.sin ((a - b) * Real.pi / 180 / 2) * Real.sin ((a - b) * Real.pi / 180 / 2) +
          Real.cos (b * Real.pi / 180) * Real.cos (a * Real.pi / 180) *
            Real.sin ((c - d) * Real.pi / 180 / 2) * Real.sin ((c - d) * Real.pi / 180 / 2) := by
    intro a b c d
    have e1 : (a - b) * Real.pi / 180 / 2 = -((b - a) * Real.pi / 180 / 2) := by ring
    have e2 : (c - d) * Real.pi / 180 / 2 = -((d - c) * Real.pi / 180 / 2) := by ring
    rw [e1, e2, Real.sin_neg, Real.sin_neg]
    ring
  have hatan : atan2 (0 : ℝ) (1 : ℝ) = 0 := by
    unfold atan2
    rw [if_pos (by norm_num : (0 : ℝ) < 1)]
    norm_num [Real.arctan_zero]
  refine ⟨?_, ?_, ?_⟩
  · simp only [calculateDistance]
    rw [key lat1 lat2 lng1 lng2]
  · simp only [calculateDistance, sub_self, zero_mul, zero_div, Real.sin_zero, mul_zero,
      zero_add, add_zero, Real.sqrt_zero, sub_zero, Real.sqrt_one]
    rw [hatan]
    norm_num
  · simp only [calculateDistance, haversineFormulaSpec]
    norm_num

/-- Claim C10 counterexample: on a payload whose air_temperature category is
empty but whose wind_speed category yields a reading, the record is the full
fallback (temperature 29, humidity 78), not the per-field default 28 paired
with the live humidity 70 — the wind defect makes the whole record fall
back. -/
theorem claim_C10_counterexample :
    formatCurrentWeather emptyTempWindyPayload "t0" = getFallbackCurrentWeather "t0" ∧
    (formatCurrentWeather emptyTempWindyPayload "t0").temperature ≠ 28 ∧
    (formatCurrentWeather emptyTempWindyPayload "t0").humidity ≠ 70 := by
  refine ⟨rfl, ?_, ?_⟩ <;> decide

/-- Claim C10 (amended): provided no wind reading is selected (the wind_speed
key is absent, or present but yields no entry), a category with no station
entry is defaulted individually — temperature 28, humidity 75, windSpeed 10,
rainfall 0 — while the other fields still come from the live payload; these
per-field defaults differ from the full fallback record's 29 / 78 / 12. -/
theorem claim_C10_per_field_defaults_amended (tv hv rv : ℚ) (ts nowIso : String) :
    (formatCurrentWeather
        { items := [{ timestamp := ts
                      readings :=
                        { air_temperature := []
                          relative_humidity := [{ station_id := "S24", value := hv }]
                          wind_speed := none
                          rainfall := [{ station_id := "S64", value := rv }] } }] } nowIso =
      { temperature := 28, humidity := jsRound hv, windSpeed := 10, rainfall := rv,
        condition := determineCondition 28 hv rv,
        description := getConditionDescription 28 rv,
        icon := getWeatherIcon rv 28,
        timestamp := ts, location := "Pasir Ris Area" }) ∧
    (formatCurrentWeather
        { items := [{ timestamp := ts
                      readings :=
                        { air_temperature := [{ station_id := "S24", value := tv }]
                          relative_humidity := []
                          wind_speed := some []
                          rainfall := [] } }] } nowIso =
      { temperature := jsRound tv, humidity := 75, windSpeed := 10, rainfall := 0,
        condition := determineCondition tv 75 0,
        description := getConditionDescription tv 0,
        icon := getWeatherIcon 0 tv,
        timestamp := ts, location := "Pasir Ris Area" }) ∧
    ((getFallbackCurrentWeather nowIso).temperature = 29 ∧
      (getFallbackCurrentWeather nowIso).humidity = 78 ∧
      (getFallbackCurrentWeather nowIso).windSpeed = 12) := by
  have h28 : jsRound (28 : ℚ) = 28 := jsRound_eq_of _ _ (by norm_num) (by norm_num)
  have h75 : jsRound (75 : ℚ) = 75 := jsRound_eq_of _ _ (by norm_num) (by norm_num)
  have h10 : jsRound (10 : ℚ) = 10 := jsRound_eq_of _ _ (by norm_num) (by norm_num)
  refine ⟨?_, ?_, rfl, rfl, rfl⟩
  · rw [← h28, ← h10]
    rfl
  · rw [← h75, ← h10]
    rfl

end ShoreSquad
